import Mathlib

/-!
Shallow embedding of the cardify-auth payment webhook / reconciliation flow.

The database is modelled as lists of rows (one list per table); each API
handler from the source becomes a pure function from the old store to the
new store.  JavaScript falsy checks on strings (`!s`) are modelled as
"`none` or the empty string"; `Math.max` over cent amounts is `max` on `Int`;
wall-clock times are `Nat` milliseconds passed in as a parameter.
-/

namespace Cardify

/-- Row of `mkt_transactions` (fields the webhook reads or writes). -/
structure Txn where
  id : String
  listing_id : String
  buyer_id : String
  stripe_payment_id : Option String
  status : String
  amount_cents : Int
  updated_at : Nat
deriving Repr, DecidableEq

/-- Row of `mkt_listings` (fields the webhook reads or writes). -/
structure Listing where
  id : String
  seller_id : String
  source_type : String
  source_id : String
  price_cents : Int
  status : String
  is_active : Bool
  buyer_id : Option String
  updated_at : Nat
deriving Repr, DecidableEq

/-- Row of `user_assets`. -/
structure Asset where
  id : String
  owner_id : String
  source_type : String
  source_id : String
deriving Repr, DecidableEq

/-- Row of `mkt_payouts`. -/
structure Payout where
  listing_id : String
  stripe_account_id : String
  amount_cents : Int
  scheduled_at : Nat
  status : String
deriving Repr, DecidableEq

/-- Row of `mkt_profiles` (fields the webhook reads or writes). -/
structure Profile where
  id : String
  email : Option String
  stripe_account_id : Option String
  stripe_verified : Bool
  is_seller : Bool
  credits : Int
deriving Repr, DecidableEq

/-- Row of the credits ledger (spec §3 "CreditsLedger entry"). -/
structure LedgerEntry where
  user_id : String
  payment_intent : String
  amount_cents : Int
  credits : Int
  reason : String
deriving Repr, DecidableEq

/-- The store: one list per table touched by the webhook flow. -/
structure Store where
  mkt_transactions : List Txn
  mkt_listings : List Listing
  user_assets : List Asset
  mkt_payouts : List Payout
  mkt_profiles : List Profile
  credits_ledger : List LedgerEntry
deriving Repr, DecidableEq

/-- Metadata carried on a Stripe PaymentIntent, as the webhook reads it. -/
structure PIMetadata where
  mkt_listing_id : Option String
  mkt_buyer_id : Option String
  mkt_seller_id : Option String
  kind : Option String
  userId : Option String
  credits : Option Int
deriving Repr, DecidableEq

/-- The PaymentIntent fields `handlePaymentIntentSucceeded` uses. -/
structure PaymentIntent where
  id : String
  amount : Int
  application_fee_amount : Option Int
  metadata : PIMetadata
deriving Repr, DecidableEq

/-- The Stripe Account fields `markSellerReadiness` uses.
`currently_due` stands for `acct.requirements?.currently_due ?? []`. -/
structure StripeAccount where
  id : String
  charges_enabled : Bool
  payouts_enabled : Bool
  currently_due : List String
  metadata_user_id : Option String
deriving Repr, DecidableEq

/-- JavaScript falsiness of an optional string: `undefined` or `""`. -/
def strFalsy : Option String → Bool
  | none => true
  | some s => decide (s = "")

/-- `.single()` of a supabase query: succeeds only on exactly one row. -/
def single? {α : Type} (xs : List α) : Option α :=
  match xs with
  | [x] => some x
  | _ => none

/-- The seller-verified boolean derived in `markSellerReadiness` (route.ts
lines 21-24). -/
def sellerVerified (acct : StripeAccount) : Bool :=
  acct.charges_enabled && acct.payouts_enabled && (acct.currently_due.length == 0)

/-- `markSellerReadiness` (route.ts lines 20-45): derive `verified`, upsert
onto the profile named by the account's `user_id` metadata when truthy,
then update every profile whose `stripe_account_id` matches the account. -/
def markSellerReadiness (acct : StripeAccount) (st : Store) : Store :=
  let verified := sellerVerified acct
  let st1 :=
    match acct.metadata_user_id with
    | some uid =>
      if uid = "" then st
      else if st.mkt_profiles.any (fun p => decide (p.id = uid)) then
        { st with mkt_profiles := st.mkt_profiles.map (fun (p : Profile) =>
            if p.id = uid then
              { p with email := none, stripe_account_id := some acct.id,
                       stripe_verified := verified, is_seller := verified }
            else p) }
      else
        { st with mkt_profiles := st.mkt_profiles ++
            [({ id := uid, email := none, stripe_account_id := some acct.id,
                stripe_verified := verified, is_seller := verified,
                credits := 0 } : Profile)] }
    | none => st
  { st1 with mkt_profiles := st1.mkt_profiles.map (fun (p : Profile) =>
      if p.stripe_account_id = some acct.id then
        { p with stripe_verified := verified, is_seller := verified }
      else p) }

/-- `transferAssetToBuyer` (route.ts lines 53-84): look the listing up; on
`source_type = "asset"` reassign the asset with `id = source_id`, otherwise
reassign the legacy `(source_type = "uploaded_image", source_id)` asset. -/
def transferAssetToBuyer (listingId buyerId : String) (st : Store) : Store :=
  match single? (st.mkt_listings.filter (fun l => decide (l.id = listingId))) with
  | none => st
  | some listing =>
    if listing.source_type = "asset" then
      { st with user_assets := st.user_assets.map (fun (a : Asset) =>
          if a.id = listing.source_id then { a with owner_id := buyerId } else a) }
    else
      { st with user_assets := st.user_assets.map (fun (a : Asset) =>
          if a.source_type = "uploaded_image" ∧ a.source_id = listing.source_id then
            { a with owner_id := buyerId }
          else a) }

/-- `queuePayoutIfPossible` (route.ts lines 86-112): skip on falsy seller id
or non-positive net; fetch the seller's profile with `.single()`; skip when
it has no truthy connected account; otherwise insert a pending payout
scheduled ten minutes (in milliseconds) after `now`. -/
def queuePayoutIfPossible (now : Nat) (listingId : String) (sellerId : Option String)
    (netCents : Int) (st : Store) : Store :=
  if strFalsy sellerId ∨ netCents ≤ 0 then st
  else
    match sellerId with
    | none => st
    | some sid =>
      match single? (st.mkt_profiles.filter (fun p => decide (p.id = sid))) with
      | none => st
      | some seller =>
        if strFalsy seller.stripe_account_id then st
        else
          match seller.stripe_account_id with
          | none => st
          | some acctId =>
            { st with mkt_payouts := st.mkt_payouts ++
                [({ listing_id := listingId, stripe_account_id := acctId,
                    amount_cents := netCents, scheduled_at := now + 10 * 60 * 1000,
                    status := "pending" } : Payout)] }

/-- Step 1 of `handlePaymentIntentSucceeded` (route.ts lines 130-151):
complete the transaction matched by stripe payment id; when that update
matched zero rows, fall back to the `(listing_id, buyer_id, pending)` match
and stamp the payment id onto it. -/
def completeTransaction (now : Nat) (stripeId listingId buyerId : String) (st : Store) : Store :=
  let tx1 := st.mkt_transactions.filter (fun t => decide (t.stripe_payment_id = some stripeId))
  let st1 := { st with mkt_transactions := st.mkt_transactions.map (fun (t : Txn) =>
      if t.stripe_payment_id = some stripeId then
        { t with status := "completed", updated_at := now }
      else t) }
  if tx1.length = 0 then
    { st1 with mkt_transactions := st1.mkt_transactions.map (fun (t : Txn) =>
        if t.listing_id = listingId ∧ t.buyer_id = buyerId ∧ t.status = "pending" then
          { t with status := "completed", stripe_payment_id := some stripeId,
                   updated_at := now }
        else t) }
  else st1

/-- Step 2 of `handlePaymentIntentSucceeded` (route.ts lines 153-163): mark
the listing sold, inactive, with the buyer recorded — unconditionally. -/
def markListingSold (now : Nat) (listingId buyerId : String) (st : Store) : Store :=
  { st with mkt_listings := st.mkt_listings.map (fun (l : Listing) =>
      if l.id = listingId then
        { l with buyer_id := some buyerId, status := "sold", is_active := false,
                 updated_at := now }
      else l) }

/-- `handlePaymentIntentSucceeded` (route.ts lines 114-170): skip on missing
listing/buyer metadata; complete the transaction (step 1), mark the listing
sold (step 2), transfer the asset (step 3), queue the payout on the net
amount `max 0 (amount - application_fee)` (step 4). -/
def handlePaymentIntentSucceeded (now : Nat) (pi : PaymentIntent) (st : Store) : Store :=
  if strFalsy pi.metadata.mkt_listing_id ∨ strFalsy pi.metadata.mkt_buyer_id then st
  else
    match pi.metadata.mkt_listing_id, pi.metadata.mkt_buyer_id with
    | some listingId, some buyerId =>
      queuePayoutIfPossible now listingId pi.metadata.mkt_seller_id
        (max 0 (pi.amount - pi.application_fee_amount.getD 0))
        (transferAssetToBuyer listingId buyerId
          (markListingSold now listingId buyerId
            (completeTransaction now pi.id listingId buyerId st)))
    | _, _ => st

/-- The payload carried by a Stripe event, as the webhook casts it. -/
inductive EventData where
  | pi (p : PaymentIntent)
  | acct (a : StripeAccount)
  | other
deriving Repr, DecidableEq

/-- A parsed Stripe event: a type tag plus its data object. -/
structure Event where
  type : String
  data : EventData
deriving Repr, DecidableEq

/-- The detached dispatch of the webhook route (route.ts lines 208-228):
`payment_intent.succeeded` goes to the sale handler, the three account
events go to `markSellerReadiness`, anything else is ignored. -/
def dispatchEvent (now : Nat) (ev : Event) (st : Store) : Store :=
  if ev.type = "payment_intent.succeeded" then
    match ev.data with
    | .pi p => handlePaymentIntentSucceeded now p st
    | _ => st
  else if ev.type = "account.updated" ∨ ev.type = "capability.updated" ∨
      ev.type = "account.application.authorized" then
    match ev.data with
    | .acct a => markSellerReadiness a st
    | _ => st
  else st

/-- A webhook signature, abstracted as the secret it was computed under
together with the body it signs. -/
structure Sig where
  secret : String
  body : Event
deriving Repr, DecidableEq

/-- `stripe.webhooks.constructEvent`: yields the parsed event exactly when
the signature was computed under the given secret over this body. -/
def constructEvent (body : Event) (sig : Sig) (secret : String) : Option Event :=
  if sig.secret = secret ∧ sig.body = body then some body else none

/-- The three HTTP outcomes of the webhook `POST` route. -/
inductive WebhookResponse where
  | ack
  | badSig
  | misconfigured
deriving Repr, DecidableEq

/-- HTTP status code of each webhook response. -/
def WebhookResponse.statusCode : WebhookResponse → Nat
  | .ack => 200
  | .badSig => 400
  | .misconfigured => 500

/-- The `received` flag of the JSON body, present only on the ack. -/
def WebhookResponse.received : WebhookResponse → Option Bool
  | .ack => some true
  | _ => none

namespace StripeWebhook

/-- The webhook `POST` route (route.ts lines 174-231): verify the signature
against the primary secret, then against the connect secret, reject with 400
(500 when no secret is configured) without touching the store; on success
build the ack and run the detached dispatch (`handlerThrows` stands for the
detached task dying before doing any work, which the route catches without
changing the response). -/
def POST (now : Nat) (primary connect : Option String) (body : Event) (sig : Sig)
    (handlerThrows : Bool) (st : Store) : WebhookResponse × Store :=
  if strFalsy primary = true ∧ strFalsy connect = true then (.misconfigured, st)
  else
    let firstTry : Option Event :=
      match primary with
      | none => none
      | some p => if p = "" then none else constructEvent body sig p
    let secondTry : Option Event :=
      match connect with
      | none => none
      | some c => if c = "" then none else constructEvent body sig c
    match firstTry with
    | some ev =>
      (WebhookResponse.ack, if handlerThrows then st else dispatchEvent now ev st)
    | none =>
      match secondTry with
      | some ev =>
        (WebhookResponse.ack, if handlerThrows then st else dispatchEvent now ev st)
      | none => (.badSig, st)

end StripeWebhook

/-- Modelled from the spec: the credits-purchase reconciliation branch of the
webhook reconciler ("Credits-purchase reconciliation", spec §4.1) is not among
the repository files here; the credits checkout route documents it as the
consumer of the `kind = "credits_purchase"` PaymentIntent metadata it writes.
Insert a CreditsLedger row keyed uniquely by the payment id — a duplicate key
meaning "already granted", not a failure — then increment the buyer profile's
credit balance by the purchased amount. -/
def grantCreditsFromPI (pi : PaymentIntent) (st : Store) : Store :=
  match pi.metadata.userId, pi.metadata.credits with
  | some uid, some c =>
    if st.credits_ledger.any (fun e => decide (e.payment_intent = pi.id)) then st
    else
      let st1 := { st with credits_ledger := st.credits_ledger ++
          [({ user_id := uid, payment_intent := pi.id, amount_cents := pi.amount,
              credits := c, reason := "purchase" } : LedgerEntry)] }
      { st1 with mkt_profiles := st1.mkt_profiles.map (fun (p : Profile) =>
          if p.id = uid then { p with credits := p.credits + c } else p) }
  | _, _ => st

/-- Modelled from the spec: the `payment_succeeded` routing of the reconciler
("Event dispatch", spec §4.1) — inspect the event metadata's `kind` tag to
distinguish a credits purchase from a marketplace sale and route accordingly.
The marketplace branch is the source-embedded `handlePaymentIntentSucceeded`. -/
def routePaymentSucceeded (now : Nat) (pi : PaymentIntent) (st : Store) : Store :=
  if pi.metadata.kind = some "credits_purchase" then grantCreditsFromPI pi st
  else handlePaymentIntentSucceeded now pi st

namespace CreditsCheckout

/-- `CREDITS_PER_USD` (credits/checkout/route.ts line 9). -/
def CREDITS_PER_USD : Int := 4

/-- `ALLOWED_PACKS` (credits/checkout/route.ts line 10). -/
def ALLOWED_PACKS : List Int := [20, 40, 60]

/-- Outcome of the credits checkout route: 401, 400, or a created checkout
session carrying the line item's unit amount and the session metadata. -/
inductive CheckoutResult where
  | notAuthenticated
  | invalidPack
  | session (credits : Int) (unit_amount : Int) (kind : String) (userId : String)
deriving Repr, DecidableEq

/-- HTTP status code of each checkout outcome. -/
def CheckoutResult.statusCode : CheckoutResult → Nat
  | .notAuthenticated => 401
  | .invalidPack => 400
  | .session _ _ _ _ => 200

/-- The credits checkout `POST` route (credits/checkout/route.ts lines 20-65):
reject unauthenticated callers with 401; reject a `usd` value outside
`ALLOWED_PACKS` (including a missing or non-numeric one) with 400 and create no
session; otherwise create a session for `usd * CREDITS_PER_USD` credits at a
unit amount of `usd * 100` cents, tagged `kind = "credits_purchase"`. -/
def POST (user : Option String) (usd : Option Int) : CheckoutResult :=
  match user with
  | none => .notAuthenticated
  | some uid =>
    match usd with
    | none => .invalidPack
    | some u =>
      if u ∈ ALLOWED_PACKS then
        .session (u * CREDITS_PER_USD) (u * 100) "credits_purchase" uid
      else .invalidPack

end CreditsCheckout

/-- The completed form of a transaction row: status `"completed"`, the
event's payment id stamped, `updated_at` refreshed. -/
def completedTxn (now : Nat) (pid : String) (t0 : Txn) : Txn :=
  { t0 with status := "completed", stripe_payment_id := some pid, updated_at := now }

/-- The sold form of a listing row: buyer recorded, status `"sold"`,
`is_active` false, `updated_at` refreshed. -/
def soldListing (now : Nat) (buyerId : String) (l0 : Listing) : Listing :=
  { l0 with buyer_id := some buyerId, status := "sold", is_active := false,
            updated_at := now }

/-- An asset row reassigned to the buyer. -/
def ownedAsset (buyerId : String) (a0 : Asset) : Asset :=
  { a0 with owner_id := buyerId }

/-- The payout row `queuePayoutIfPossible` inserts. -/
def pendingPayout (now : Nat) (listingId acctId : String) (net : Int) : Payout :=
  ⟨listingId, acctId, net, now + 10 * 60 * 1000, "pending"⟩

/-! ### Concrete sample rows, stores and events for witnesses -/

/-- A pending transaction awaiting the sale of listing `L1` by buyer `B1`,
created against a previous payment id `pi_0`. -/
def txC1 : Txn := ⟨"t1", "L1", "B1", some "pi_0", "pending", 900, 0⟩

/-- Listing `L1`: a `source_type = "asset"` listing of seller `S1`. -/
def listingC1 : Listing := ⟨"L1", "S1", "asset", "A1", 900, "listed", true, none, 0⟩

/-- The asset backing listing `L1`, owned by the seller. -/
def assetC1 : Asset := ⟨"A1", "S1", "asset", "src1"⟩

/-- Seller `S1`'s profile with a connected Stripe account. -/
def profileC1 : Profile := ⟨"S1", none, some "acct_1", true, true, 0⟩

/-- A store holding one pending sale of `L1` and a connected seller. -/
def stC1 : Store := ⟨[txC1], [listingC1], [assetC1], [], [profileC1], []⟩

/-- A verified marketplace-sale payment event for `L1` under a fresh payment
id (simulating a retried checkout): gross 900 cents, platform fee 45. -/
def piC1 : PaymentIntent :=
  ⟨"pi_1", 900, some 45, ⟨some "L1", some "B1", some "S1", none, none, none⟩⟩

/-- Two pending transactions, neither carrying payment id `pi_new`. -/
def stC4 : Store :=
  ⟨[⟨"t4", "L4", "B4", some "pi_old", "pending", 1000, 0⟩,
    ⟨"t9", "L9", "B9", some "pi_9", "pending", 500, 0⟩], [], [], [], [], []⟩

/-- Like `stC4` but the first transaction already carries `pi_new`. -/
def stC4b : Store :=
  ⟨[⟨"t4", "L4", "B4", some "pi_new", "pending", 1000, 0⟩,
    ⟨"t9", "L9", "B9", some "pi_9", "pending", 500, 0⟩], [], [], [], [], []⟩

/-- A sale event for `L4`/`B4` under payment id `pi_new`. -/
def piC4 : PaymentIntent :=
  ⟨"pi_new", 1000, some 50, ⟨some "L4", some "B4", some "S4", none, none, none⟩⟩

/-- A store with a connected seller `S5` for listing `L5`. -/
def stC5 : Store :=
  ⟨[], [⟨"L5", "S5", "asset", "A5", 1000, "listed", true, none, 0⟩],
   [⟨"A5", "S5", "asset", "src5"⟩], [], [⟨"S5", none, some "acct5", true, true, 0⟩], []⟩

/-- Sale of `L5`: gross 1000 cents, platform fee 50. -/
def piC5a : PaymentIntent :=
  ⟨"pi_a", 1000, some 50, ⟨some "L5", some "B5", some "S5", none, none, none⟩⟩

/-- Sale of `L5`: gross 900 cents, platform fee 45 (5 percent). -/
def piC5b : PaymentIntent :=
  ⟨"pi_b", 900, some 45, ⟨some "L5", some "B5", some "S5", none, none, none⟩⟩

/-- A succeeded payment event whose metadata lacks the buyer id. -/
def piC8 : PaymentIntent :=
  ⟨"pi_8", 500, none, ⟨some "L1", none, some "S1", none, none, none⟩⟩

/-- A credits-purchase payment event: user `U1` bought 80 credits for 2000
cents. -/
def piC3 : PaymentIntent :=
  ⟨"pi_c", 2000, none, ⟨none, none, none, some "credits_purchase", some "U1", some 80⟩⟩

/-- A store holding user `U1`'s profile with 5 credits and an empty ledger. -/
def stC3 : Store := ⟨[], [], [], [], [⟨"U1", none, none, false, false, 5⟩], []⟩

/-- Like `stC3` but payment `pi_c` is already recorded in the ledger. -/
def stC3dup : Store :=
  ⟨[], [], [], [], [⟨"U1", none, none, false, false, 85⟩],
   [⟨"U1", "pi_c", 2000, 80, "purchase"⟩]⟩

/-- A sample marketplace-sale event wrapped as a Stripe event. -/
def evC6 : Event := ⟨"payment_intent.succeeded", .pi piC1⟩

/-- An event of a type the webhook does not handle. -/
def evC6unknown : Event := ⟨"charge.refunded", .other⟩

/-! ### Frame lemmas: each reconciliation step touches one table -/

@[simp] theorem completeTransaction_listings (now : Nat) (sid lid bid : String) (st : Store) :
    (completeTransaction now sid lid bid st).mkt_listings = st.mkt_listings := by
  simp only [completeTransaction]; split <;> rfl

@[simp] theorem completeTransaction_assets (now : Nat) (sid lid bid : String) (st : Store) :
    (completeTransaction now sid lid bid st).user_assets = st.user_assets := by
  simp only [completeTransaction]; split <;> rfl

@[simp] theorem completeTransaction_payouts (now : Nat) (sid lid bid : String) (st : Store) :
    (completeTransaction now sid lid bid st).mkt_payouts = st.mkt_payouts := by
  simp only [completeTransaction]; split <;> rfl

@[simp] theorem completeTransaction_profiles (now : Nat) (sid lid bid : String) (st : Store) :
    (completeTransaction now sid lid bid st).mkt_profiles = st.mkt_profiles := by
  simp only [completeTransaction]; split <;> rfl

@[simp] theorem completeTransaction_ledger (now : Nat) (sid lid bid : String) (st : Store) :
    (completeTransaction now sid lid bid st).credits_ledger = st.credits_ledger := by
  simp only [completeTransaction]; split <;> rfl

@[simp] theorem markListingSold_transactions (now : Nat) (lid bid : String) (st : Store) :
    (markListingSold now lid bid st).mkt_transactions = st.mkt_transactions := rfl

@[simp] theorem markListingSold_assets (now : Nat) (lid bid : String) (st : Store) :
    (markListingSold now lid bid st).user_assets = st.user_assets := rfl

@[simp] theorem markListingSold_payouts (now : Nat) (lid bid : String) (st : Store) :
    (markListingSold now lid bid st).mkt_payouts = st.mkt_payouts := rfl

@[simp] theorem markListingSold_profiles (now : Nat) (lid bid : String) (st : Store) :
    (markListingSold now lid bid st).mkt_profiles = st.mkt_profiles := rfl

@[simp] theorem markListingSold_ledger (now : Nat) (lid bid : String) (st : Store) :
    (markListingSold now lid bid st).credits_ledger = st.credits_ledger := rfl

@[simp] theorem transferAsset_transactions (lid bid : String) (st : Store) :
    (transferAssetToBuyer lid bid st).mkt_transactions = st.mkt_transactions := by
  unfold transferAssetToBuyer; split
  · rfl
  · split <;> rfl

@[simp] theorem transferAsset_listings (lid bid : String) (st : Store) :
    (transferAssetToBuyer lid bid st).mkt_listings = st.mkt_listings := by
  unfold transferAssetToBuyer; split
  · rfl
  · split <;> rfl

@[simp] theorem transferAsset_payouts (lid bid : String) (st : Store) :
    (transferAssetToBuyer lid bid st).mkt_payouts = st.mkt_payouts := by
  unfold transferAssetToBuyer; split
  · rfl
  · split <;> rfl

@[simp] theorem transferAsset_profiles (lid bid : String) (st : Store) :
    (transferAssetToBuyer lid bid st).mkt_profiles = st.mkt_profiles := by
  unfold transferAssetToBuyer; split
  · rfl
  · split <;> rfl

@[simp] theorem transferAsset_ledger (lid bid : String) (st : Store) :
    (transferAssetToBuyer lid bid st).credits_ledger = st.credits_ledger := by
  unfold transferAssetToBuyer; split
  · rfl
  · split <;> rfl

@[simp] theorem queuePayout_transactions (now : Nat) (lid : String) (sid : Option String)
    (net : Int) (st : Store) :
    (queuePayoutIfPossible now lid sid net st).mkt_transactions = st.mkt_transactions := by
  unfold queuePayoutIfPossible
  split
  · rfl
  · split
    · rfl
    · split
      · rfl
      · split
        · rfl
        · split <;> rfl

@[simp] theorem queuePayout_listings (now : Nat) (lid : String) (sid : Option String)
    (net : Int) (st : Store) :
    (queuePayoutIfPossible now lid sid net st).mkt_listings = st.mkt_listings := by
  unfold queuePayoutIfPossible
  split
  · rfl
  · split
    · rfl
    · split
      · rfl
      · split
        · rfl
        · split <;> rfl

@[simp] theorem queuePayout_assets (now : Nat) (lid : String) (sid : Option String)
    (net : Int) (st : Store) :
    (queuePayoutIfPossible now lid sid net st).user_assets = st.user_assets := by
  unfold queuePayoutIfPossible
  split
  · rfl
  · split
    · rfl
    · split
      · rfl
      · split
        · rfl
        · split <;> rfl

@[simp] theorem queuePayout_profiles (now : Nat) (lid : String) (sid : Option String)
    (net : Int) (st : Store) :
    (queuePayoutIfPossible now lid sid net st).mkt_profiles = st.mkt_profiles := by
  unfold queuePayoutIfPossible
  split
  · rfl
  · split
    · rfl
    · split
      · rfl
      · split
        · rfl
        · split <;> rfl

@[simp] theorem queuePayout_ledger (now : Nat) (lid : String) (sid : Option String)
    (net : Int) (st : Store) :
    (queuePayoutIfPossible now lid sid net st).credits_ledger = st.credits_ledger := by
  unfold queuePayoutIfPossible
  split
  · rfl
  · split
    · rfl
    · split
      · rfl
      · split
        · rfl
        · split <;> rfl

/-- Shape of the payouts table after `queuePayoutIfPossible`: either
untouched, or exactly one pending row appended, and then the seller id was
truthy, the seller's single profile row holds a truthy connected account,
and the net amount is strictly positive. -/
theorem queuePayout_payouts_shape (now : Nat) (lid : String) (sid : Option String)
    (net : Int) (st : Store) :
    (queuePayoutIfPossible now lid sid net st).mkt_payouts = st.mkt_payouts ∨
    (∃ S seller acctId, sid = some S ∧ S ≠ "" ∧
      single? (st.mkt_profiles.filter (fun p => decide (p.id = S))) = some seller ∧
      seller.stripe_account_id = some acctId ∧ acctId ≠ "" ∧ 0 < net ∧
      (queuePayoutIfPossible now lid sid net st).mkt_payouts = st.mkt_payouts ++
        [({ listing_id := lid, stripe_account_id := acctId, amount_cents := net,
            scheduled_at := now + 10 * 60 * 1000, status := "pending" } : Payout)]) := by
  unfold queuePayoutIfPossible
  split
  · exact Or.inl rfl
  next hcond =>
    have hpos : 0 < net := by
      rcases lt_or_le 0 net with h | h
      · exact h
      · exact absurd (Or.inr h) hcond
    split
    · exact Or.inl rfl
    next S =>
      have hSne : S ≠ "" := by
        intro hS
        exact hcond (Or.inl (by simp [strFalsy, hS]))
      split
      · exact Or.inl rfl
      next seller hseller =>
        split
        · exact Or.inl rfl
        next hacctTruthy =>
          split
          next hnoacct =>
            exact absurd (by simp [strFalsy, hnoacct]) hacctTruthy
          next acctId hacct =>
            refine Or.inr ⟨S, seller, acctId, rfl, hSne, hseller, hacct, ?_, hpos, rfl⟩
            intro hempty
            exact hacctTruthy (by simp [strFalsy, hacct, hempty])

/-- Shape of the payouts table after a marketplace-sale reconciliation:
either untouched, or exactly one pending row appended, and in that case the
event carried a truthy seller id, the seller's unique profile row holds a
truthy connected account, and the net amount is strictly positive. -/
theorem handle_payouts_shape (now : Nat) (pi : PaymentIntent) (st : Store) :
    (handlePaymentIntentSucceeded now pi st).mkt_payouts = st.mkt_payouts ∨
    (∃ L S seller acctId,
      pi.metadata.mkt_listing_id = some L ∧
      pi.metadata.mkt_seller_id = some S ∧ S ≠ "" ∧
      single? (st.mkt_profiles.filter (fun p => decide (p.id = S))) = some seller ∧
      seller.stripe_account_id = some acctId ∧ acctId ≠ "" ∧
      0 < pi.amount - pi.application_fee_amount.getD 0 ∧
      (handlePaymentIntentSucceeded now pi st).mkt_payouts = st.mkt_payouts ++
        [({ listing_id := L, stripe_account_id := acctId,
            amount_cents := pi.amount - pi.application_fee_amount.getD 0,
            scheduled_at := now + 10 * 60 * 1000, status := "pending" } : Payout)]) := by
  unfold handlePaymentIntentSucceeded
  split
  · exact Or.inl rfl
  next hguard =>
    split
    next listingId buyerId hL hB =>
      set st4 := transferAssetToBuyer listingId buyerId
        (markListingSold now listingId buyerId
          (completeTransaction now pi.id listingId buyerId st)) with hst4
      have hpro : st4.mkt_profiles = st.mkt_profiles := by
        simp [hst4]
      have hpay : st4.mkt_payouts = st.mkt_payouts := by
        simp [hst4]
      rcases queuePayout_payouts_shape now listingId pi.metadata.mkt_seller_id
          (max 0 (pi.amount - pi.application_fee_amount.getD 0)) st4 with
        hsame | ⟨S, seller, acctId, hS, hSne, hseller, hacct, hacctne, hpos, heq⟩
      · exact Or.inl (hsame.trans hpay)
      · have hposmax : 0 < pi.amount - pi.application_fee_amount.getD 0 := by
          rcases lt_max_iff.mp hpos with h | h
          · exact absurd h (lt_irrefl 0)
          · exact h
        have hmax : max 0 (pi.amount - pi.application_fee_amount.getD 0) =
            pi.amount - pi.application_fee_amount.getD 0 :=
          max_eq_right (le_of_lt hposmax)
        refine Or.inr ⟨listingId, S, seller, acctId, hL, hS, hSne, ?_, hacct, hacctne,
          hposmax, ?_⟩
        · rw [← hpro]; exact hseller
        · rw [heq, hpay, hmax]
    · exact Or.inl rfl

/-- C10: the reconciler inserts a payout row only when the event carried a
(truthy) seller id, the seller's profile holds a connected Stripe account id,
and the net proceeds are strictly positive; a fee at or above the gross
amount never queues a payout; every inserted row has status "pending" and is
scheduled ten minutes (in milliseconds) after processing time. -/
theorem payout_gating (now : Nat) (pi : PaymentIntent) (st : Store) :
    (∀ r : Payout, r ∈ (handlePaymentIntentSucceeded now pi st).mkt_payouts →
      r ∉ st.mkt_payouts →
      ((∃ S seller, pi.metadata.mkt_seller_id = some S ∧ S ≠ "" ∧
        single? (st.mkt_profiles.filter (fun p => decide (p.id = S))) = some seller ∧
        seller.stripe_account_id = some r.stripe_account_id) ∧
      0 < pi.amount - pi.application_fee_amount.getD 0 ∧
      r.amount_cents = pi.amount - pi.application_fee_amount.getD 0 ∧
      r.status = "pending" ∧ r.scheduled_at = now + 10 * 60 * 1000)) ∧
    (pi.amount ≤ pi.application_fee_amount.getD 0 →
      (handlePaymentIntentSucceeded now pi st).mkt_payouts = st.mkt_payouts) := by
  constructor
  · intro r hr hnew
    rcases handle_payouts_shape now pi st with hsame | hrow
    · exact absurd (hsame ▸ hr) hnew
    · rcases hrow with ⟨L, S, seller, acctId, hL, hS, hSne, hsingle, hacct, hacctne, hpos, heq⟩
      rw [heq] at hr
      rcases List.mem_append.mp hr with hold | hnewr
      · exact absurd hold hnew
      · have hr' : r = ({ listing_id := L, stripe_account_id := acctId,
                          amount_cents := pi.amount - pi.application_fee_amount.getD 0,
                          scheduled_at := now + 10 * 60 * 1000,
                          status := "pending" } : Payout) := by
          simpa using hnewr
        subst hr'
        exact ⟨⟨S, seller, hS, hSne, hsingle, hacct⟩, hpos, rfl, rfl, rfl⟩
  · intro hfee
    rcases handle_payouts_shape now pi st with hsame | hrow
    · exact hsame
    · rcases hrow with ⟨_, _, _, _, _, _, _, _, _, _, hpos, _⟩
      omega

/-- C5: any payout row the reconciler queues carries the amount
`max 0 (gross - platform fee)`. -/
theorem payout_amount_net (now : Nat) (pi : PaymentIntent) (st : Store) (r : Payout)
    (hr : r ∈ (handlePaymentIntentSucceeded now pi st).mkt_payouts)
    (hnew : r ∉ st.mkt_payouts) :
    r.amount_cents = max 0 (pi.amount - pi.application_fee_amount.getD 0) := by
  have h := ((payout_gating now pi st).1 r hr hnew)
  rcases h with ⟨_, hpos, hamt, _, _⟩
  rw [hamt, max_eq_right (le_of_lt hpos)]

/-- Full effect of one marketplace-sale delivery on a store holding exactly
one transaction (matching by payment id, or else pending for the listing and
buyer), one listing backed by an asset, and the connected seller's profile:
the transaction completes with the payment id stamped, the listing is sold
and inactive, the asset moves to the buyer, and one pending payout for the
net amount is appended. -/
theorem handle_one_sale (now : Nat) (pi : PaymentIntent) (L B S aid acct : String)
    (t0 : Txn) (l0 : Listing) (a0 : Asset) (p0 : Profile) (st : Store)
    (hL : pi.metadata.mkt_listing_id = some L) (hLne : L ≠ "")
    (hB : pi.metadata.mkt_buyer_id = some B) (hBne : B ≠ "")
    (hS : pi.metadata.mkt_seller_id = some S) (hSne : S ≠ "")
    (hfee : pi.application_fee_amount.getD 0 < pi.amount)
    (htx : st.mkt_transactions = [t0])
    (hmatch : t0.stripe_payment_id = some pi.id ∨
      (t0.listing_id = L ∧ t0.buyer_id = B ∧ t0.status = "pending"))
    (hli : st.mkt_listings = [l0]) (hl0 : l0.id = L)
    (hl0t : l0.source_type = "asset") (hl0s : l0.source_id = aid)
    (has : st.user_assets = [a0]) (ha0 : a0.id = aid)
    (hpr : st.mkt_profiles = [p0]) (hp0 : p0.id = S)
    (hp0a : p0.stripe_account_id = some acct) (hacct : acct ≠ "") :
    handlePaymentIntentSucceeded now pi st =
      { mkt_transactions := [completedTxn now pi.id t0],
        mkt_listings := [soldListing now B l0],
        user_assets := [ownedAsset B a0],
        mkt_payouts := st.mkt_payouts ++
          [pendingPayout now L acct (pi.amount - pi.application_fee_amount.getD 0)],
        mkt_profiles := [p0],
        credits_ledger := st.credits_ledger } := by
  have hnet : ¬ (max 0 (pi.amount - pi.application_fee_amount.getD 0) ≤ 0) := by
    simp only [max_le_iff, le_refl, true_and, not_le]
    omega
  have hmax : max 0 (pi.amount - pi.application_fee_amount.getD 0) =
      pi.amount - pi.application_fee_amount.getD 0 := max_eq_right (by omega)
  have h1 : completeTransaction now pi.id L B st =
      { st with mkt_transactions := [completedTxn now pi.id t0] } := by
    by_cases hid : t0.stripe_payment_id = some pi.id
    · simp only [completeTransaction, htx]
      simp [hid, completedTxn]
    · rcases hmatch with hid' | ⟨hl, hb, hs⟩
      · exact absurd hid' hid
      · simp only [completeTransaction, htx]
        simp [hid, hl, hb, hs, completedTxn]
  have h2 : markListingSold now L B
        ({ st with mkt_transactions := [completedTxn now pi.id t0] }) =
      { st with mkt_transactions := [completedTxn now pi.id t0],
                mkt_listings := [soldListing now B l0] } := by
    simp [markListingSold, hli, hl0, soldListing]
  have h3 : transferAssetToBuyer L B
        ({ st with mkt_transactions := [completedTxn now pi.id t0],
                   mkt_listings := [soldListing now B l0] }) =
      { st with mkt_transactions := [completedTxn now pi.id t0],
                mkt_listings := [soldListing now B l0],
                user_assets := [ownedAsset B a0] } := by
    simp [transferAssetToBuyer, single?, hl0, hl0t, hl0s, has, ha0,
      soldListing, ownedAsset]
  have h4 : queuePayoutIfPossible now L (some S)
        (max 0 (pi.amount - pi.application_fee_amount.getD 0))
        ({ st with mkt_transactions := [completedTxn now pi.id t0],
                   mkt_listings := [soldListing now B l0],
                   user_assets := [ownedAsset B a0] }) =
      { st with mkt_transactions := [completedTxn now pi.id t0],
                mkt_listings := [soldListing now B l0],
                user_assets := [ownedAsset B a0],
                mkt_payouts := st.mkt_payouts ++ [pendingPayout now L acct
                  (pi.amount - pi.application_fee_amount.getD 0)] } := by
    simp only [queuePayoutIfPossible, strFalsy, hpr]
    rw [if_neg (by simp [hSne, hnet])]
    simp [single?, hp0, hp0a, hacct, hmax, pendingPayout]
  simp only [handlePaymentIntentSucceeded, hL, hB, hS]
  rw [if_neg (by simp [strFalsy, hLne, hBne]), h1, h2, h3, h4, hpr]

/-- C1 (counterexample): delivering the same verified marketplace-sale event
twice does not leave the store in the single-delivery state: the payout
insert has no idempotency guard, so after two deliveries the listing has two
payout rows, refuting "at most one payout row for that listing". -/
theorem double_delivery_not_idempotent_cex :
    ((handlePaymentIntentSucceeded 1 piC1
        (handlePaymentIntentSucceeded 0 piC1 stC1)).mkt_payouts.filter
        (fun r => decide (r.listing_id = "L1"))).length = 2 ∧
    ¬ (((handlePaymentIntentSucceeded 1 piC1
        (handlePaymentIntentSucceeded 0 piC1 stC1)).mkt_payouts.filter
        (fun r => decide (r.listing_id = "L1"))).length ≤ 1) ∧
    ((handlePaymentIntentSucceeded 0 piC1 stC1).mkt_payouts.filter
        (fun r => decide (r.listing_id = "L1"))).length = 1 := by decide

/-- C1 (amended): delivering the same verified marketplace-sale event twice
still yields exactly one completed transaction carrying the event's payment
id, exactly one listing sold and inactive, and exactly one asset handed to
the buyer — but the payout insert is repeated, so the listing carries one
payout row per delivery (two rows after two deliveries). -/
theorem double_delivery_state (n1 n2 : Nat) (pi : PaymentIntent)
    (L B S aid acct : String) (t0 : Txn) (l0 : Listing) (a0 : Asset) (p0 : Profile)
    (st : Store)
    (hL : pi.metadata.mkt_listing_id = some L) (hLne : L ≠ "")
    (hB : pi.metadata.mkt_buyer_id = some B) (hBne : B ≠ "")
    (hS : pi.metadata.mkt_seller_id = some S) (hSne : S ≠ "")
    (hfee : pi.application_fee_amount.getD 0 < pi.amount)
    (htx : st.mkt_transactions = [t0])
    (ht0l : t0.listing_id = L) (ht0b : t0.buyer_id = B) (ht0s : t0.status = "pending")
    (hli : st.mkt_listings = [l0]) (hl0 : l0.id = L)
    (hl0t : l0.source_type = "asset") (hl0s : l0.source_id = aid)
    (has : st.user_assets = [a0]) (ha0 : a0.id = aid)
    (hpr : st.mkt_profiles = [p0]) (hp0 : p0.id = S)
    (hp0a : p0.stripe_account_id = some acct) (hacct : acct ≠ "")
    (hpay : st.mkt_payouts = []) :
    handlePaymentIntentSucceeded n2 pi (handlePaymentIntentSucceeded n1 pi st) =
      { mkt_transactions := [completedTxn n2 pi.id t0],
        mkt_listings := [soldListing n2 B l0],
        user_assets := [ownedAsset B a0],
        mkt_payouts :=
          [pendingPayout n1 L acct (pi.amount - pi.application_fee_amount.getD 0),
           pendingPayout n2 L acct (pi.amount - pi.application_fee_amount.getD 0)],
        mkt_profiles := [p0],
        credits_ledger := st.credits_ledger } ∧
    ((handlePaymentIntentSucceeded n2 pi
        (handlePaymentIntentSucceeded n1 pi st)).mkt_payouts.filter
        (fun r => decide (r.listing_id = L))).length = 2 := by
  have h1 := handle_one_sale n1 pi L B S aid acct t0 l0 a0 p0 st hL hLne hB hBne
    hS hSne hfee htx (Or.inr ⟨ht0l, ht0b, ht0s⟩) hli hl0 hl0t hl0s has ha0 hpr
    hp0 hp0a hacct
  have h2 := handle_one_sale n2 pi L B S aid acct
    (completedTxn n1 pi.id t0) (soldListing n1 B l0) (ownedAsset B a0) p0
    (handlePaymentIntentSucceeded n1 pi st) hL hLne hB hBne hS hSne hfee
    (by rw [h1]) (Or.inl rfl) (by rw [h1]) hl0 hl0t hl0s (by rw [h1]) ha0
    (by rw [h1]) hp0 hp0a hacct
  have hfinal : handlePaymentIntentSucceeded n2 pi
      (handlePaymentIntentSucceeded n1 pi st) =
      { mkt_transactions := [completedTxn n2 pi.id t0],
        mkt_listings := [soldListing n2 B l0],
        user_assets := [ownedAsset B a0],
        mkt_payouts :=
          [pendingPayout n1 L acct (pi.amount - pi.application_fee_amount.getD 0),
           pendingPayout n2 L acct (pi.amount - pi.application_fee_amount.getD 0)],
        mkt_profiles := [p0],
        credits_ledger := st.credits_ledger } := by
    rw [h2, h1]
    simp [hpay, completedTxn, soldListing, ownedAsset]
  refine ⟨hfinal, ?_⟩
  rw [hfinal]
  simp [pendingPayout]

/-- C1 (witness for the amended theorem): the concrete two-delivery run. -/
theorem double_delivery_state_witness :
    handlePaymentIntentSucceeded 1 piC1 (handlePaymentIntentSucceeded 0 piC1 stC1) =
      { mkt_transactions := [completedTxn 1 "pi_1" txC1],
        mkt_listings := [soldListing 1 "B1" listingC1],
        user_assets := [ownedAsset "B1" assetC1],
        mkt_payouts :=
          [pendingPayout 0 "L1" "acct_1" 855, pendingPayout 1 "L1" "acct_1" 855],
        mkt_profiles := [profileC1],
        credits_ledger := [] } ∧
    ((handlePaymentIntentSucceeded 1 piC1
        (handlePaymentIntentSucceeded 0 piC1 stC1)).mkt_payouts.filter
        (fun r => decide (r.listing_id = "L1"))).length = 2 :=
  double_delivery_state 0 1 piC1 "L1" "B1" "S1" "A1" "acct_1"
    txC1 listingC1 assetC1 profileC1 stC1
    rfl (by decide) rfl (by decide) rfl (by decide) (by decide)
    rfl rfl rfl rfl rfl rfl rfl rfl rfl rfl rfl rfl rfl (by decide) rfl

/-- Step-1 behaviour when no stored transaction carries the event's payment
id: only the `(listing_id, buyer_id, pending)` fallback update applies, and
it stamps the payment id. -/
theorem completeTransaction_none (now : Nat) (pid L B : String) (st : Store)
    (hnone : ∀ t ∈ st.mkt_transactions, t.stripe_payment_id ≠ some pid) :
    (completeTransaction now pid L B st).mkt_transactions =
      st.mkt_transactions.map (fun t =>
        if t.listing_id = L ∧ t.buyer_id = B ∧ t.status = "pending" then
          { t with status := "completed", stripe_payment_id := some pid,
                   updated_at := now }
        else t) := by
  have hfil : st.mkt_transactions.filter
      (fun t => decide (t.stripe_payment_id = some pid)) = [] := by
    rw [List.filter_eq_nil_iff]
    intro t ht
    simpa using hnone t ht
  have hmapid : st.mkt_transactions.map (fun t =>
      if t.stripe_payment_id = some pid then
        { t with status := "completed", updated_at := now }
      else t) = st.mkt_transactions := by
    conv_rhs => rw [← List.map_id st.mkt_transactions]
    exact List.map_congr_left (fun t ht => by simp [hnone t ht])
  simp only [completeTransaction, hfil, List.length_nil, if_pos, hmapid]

/-- Step-1 behaviour when a stored transaction does carry the event's payment
id: only the by-id update applies; the fallback update is not performed. -/
theorem completeTransaction_byId (now : Nat) (pid L B : String) (st : Store)
    (hsome : ∃ t ∈ st.mkt_transactions, t.stripe_payment_id = some pid) :
    (completeTransaction now pid L B st).mkt_transactions =
      st.mkt_transactions.map (fun t =>
        if t.stripe_payment_id = some pid then
          { t with status := "completed", updated_at := now }
        else t) := by
  have hfil : st.mkt_transactions.filter
      (fun t => decide (t.stripe_payment_id = some pid)) ≠ [] := by
    rcases hsome with ⟨t, ht, hts⟩
    intro hnil
    have := List.filter_eq_nil_iff.mp hnil t ht
    simp [hts] at this
  simp only [completeTransaction]
  rw [if_neg (fun h => hfil (List.length_eq_zero.mp h))]

/-- The reconciler's transactions table is decided entirely by step 1. -/
theorem handle_transactions_eq_step1 (now : Nat) (pi : PaymentIntent) (st : Store)
    (L B : String)
    (hL : pi.metadata.mkt_listing_id = some L) (hLne : L ≠ "")
    (hB : pi.metadata.mkt_buyer_id = some B) (hBne : B ≠ "") :
    (handlePaymentIntentSucceeded now pi st).mkt_transactions =
      (completeTransaction now pi.id L B st).mkt_transactions := by
  simp only [handlePaymentIntentSucceeded, hL, hB]
  rw [if_neg (by simp [strFalsy, hLne, hBne])]
  simp

/-- C4: when the incoming payment id matches no stored transaction row, the
fallback completes every `(listing_id, buyer_id, pending)` row and stamps
the new payment id onto it; when some row does match by payment id, only the
by-id completion runs and the fallback update is not performed. -/
theorem fallback_transaction_matching (now : Nat) (pi : PaymentIntent) (st : Store)
    (L B : String)
    (hL : pi.metadata.mkt_listing_id = some L) (hLne : L ≠ "")
    (hB : pi.metadata.mkt_buyer_id = some B) (hBne : B ≠ "") :
    ((∀ t ∈ st.mkt_transactions, t.stripe_payment_id ≠ some pi.id) →
      (handlePaymentIntentSucceeded now pi st).mkt_transactions =
        st.mkt_transactions.map (fun t =>
          if t.listing_id = L ∧ t.buyer_id = B ∧ t.status = "pending" then
            { t with status := "completed", stripe_payment_id := some pi.id,
                     updated_at := now }
          else t)) ∧
    ((∃ t ∈ st.mkt_transactions, t.stripe_payment_id = some pi.id) →
      (handlePaymentIntentSucceeded now pi st).mkt_transactions =
        st.mkt_transactions.map (fun t =>
          if t.stripe_payment_id = some pi.id then
            { t with status := "completed", updated_at := now }
          else t)) := by
  constructor
  · intro hnone
    rw [handle_transactions_eq_step1 now pi st L B hL hLne hB hBne,
      completeTransaction_none now pi.id L B st hnone]
  · intro hsome
    rw [handle_transactions_eq_step1 now pi st L B hL hLne hB hBne,
      completeTransaction_byId now pi.id L B st hsome]

/-- C4 (witness): concrete runs of both matching modes. -/
theorem fallback_transaction_matching_witness :
    (handlePaymentIntentSucceeded 5 piC4 stC4).mkt_transactions =
      stC4.mkt_transactions.map (fun t =>
        if t.listing_id = "L4" ∧ t.buyer_id = "B4" ∧ t.status = "pending" then
          { t with status := "completed", stripe_payment_id := some "pi_new",
                   updated_at := 5 }
        else t) ∧
    (handlePaymentIntentSucceeded 5 piC4 stC4b).mkt_transactions =
      stC4b.mkt_transactions.map (fun t =>
        if t.stripe_payment_id = some "pi_new" then
          { t with status := "completed", updated_at := 5 }
        else t) :=
  ⟨(fallback_transaction_matching 5 piC4 stC4 "L4" "B4"
      rfl (by decide) rfl (by decide)).1 (by decide),
   (fallback_transaction_matching 5 piC4 stC4b "L4" "B4"
      rfl (by decide) rfl (by decide)).2 (by decide)⟩

/-- C8: a succeeded payment event whose metadata lacks the listing id or the
buyer id (absent, or the JavaScript-falsy empty string) leaves the entire
store unchanged: no table is written. -/
theorem missing_metadata_noop (now : Nat) (pi : PaymentIntent) (st : Store)
    (h : strFalsy pi.metadata.mkt_listing_id = true ∨
         strFalsy pi.metadata.mkt_buyer_id = true) :
    handlePaymentIntentSucceeded now pi st = st := by
  unfold handlePaymentIntentSucceeded
  rcases h with h | h <;> simp [h]

/-- C8 (witness): an event without a buyer id leaves the concrete store
untouched. -/
theorem missing_metadata_noop_witness :
    handlePaymentIntentSucceeded 7 piC8 stC1 = stC1 :=
  missing_metadata_noop 7 piC8 stC1 (Or.inr rfl)

/-- C5 (witness): gross 1000 with fee 50 queues 950; gross 900 with the
5-percent fee 45 queues 855. -/
theorem payout_amount_net_witness :
    (pendingPayout 0 "L5" "acct5" 950).amount_cents =
      max 0 (piC5a.amount - piC5a.application_fee_amount.getD 0) ∧
    (pendingPayout 0 "L5" "acct5" 855).amount_cents =
      max 0 (piC5b.amount - piC5b.application_fee_amount.getD 0) :=
  ⟨payout_amount_net 0 piC5a stC5 (pendingPayout 0 "L5" "acct5" 950)
      (by decide) (by decide),
   payout_amount_net 0 piC5b stC5 (pendingPayout 0 "L5" "acct5" 855)
      (by decide) (by decide)⟩

/-- C2: with both secrets configured, the webhook accepts exactly the
requests whose signature was computed under the primary or the connect
secret over the delivered body (primary tried first, connect on a primary
failure); a signature computed under any other secret yields the 400
"bad sig" response with the store untouched; on acceptance the detached
task runs the dispatcher on the verified event. -/
theorem webhook_signature_gate (now : Nat) (p c : String) (body : Event)
    (sig : Sig) (ht : Bool) (st : Store)
    (hpne : p ≠ "") (hcne : c ≠ "") :
    (((StripeWebhook.POST now (some p) (some c) body sig ht st).1 =
        WebhookResponse.ack) ↔
      (sig = ⟨p, body⟩ ∨ sig = ⟨c, body⟩)) ∧
    (sig.secret ≠ p → sig.secret ≠ c →
      StripeWebhook.POST now (some p) (some c) body sig ht st =
        (WebhookResponse.badSig, st) ∧
      WebhookResponse.badSig.statusCode = 400) ∧
    ((StripeWebhook.POST now (some p) (some c) body sig ht st).1 =
        WebhookResponse.ack → ht = false →
      (StripeWebhook.POST now (some p) (some c) body sig ht st).2 =
        dispatchEvent now body st) := by
  obtain ⟨s, sb⟩ := sig
  have hPOST : StripeWebhook.POST now (some p) (some c) body ⟨s, sb⟩ ht st =
      (if (s = p ∧ sb = body) ∨ (s = c ∧ sb = body) then
        (WebhookResponse.ack, if ht then st else dispatchEvent now body st)
      else (WebhookResponse.badSig, st)) := by
    by_cases h1 : s = p ∧ sb = body <;> by_cases h2 : s = c ∧ sb = body <;>
      simp [StripeWebhook.POST, constructEvent, strFalsy, h1, h2, hpne, hcne]
    by_cases hcp : c = p <;> simp [hcp]
  rw [hPOST]
  by_cases hval : (s = p ∧ sb = body) ∨ (s = c ∧ sb = body)
  · rw [if_pos hval]
    refine ⟨?_, ?_, ?_⟩
    · constructor
      · intro _
        rcases hval with ⟨h1, h2⟩ | ⟨h1, h2⟩
        · exact Or.inl (by rw [h1, h2])
        · exact Or.inr (by rw [h1, h2])
      · intro _
        rfl
    · intro h1 h2
      exfalso
      rcases hval with ⟨hp, _⟩ | ⟨hc, _⟩
      · exact h1 hp
      · exact h2 hc
    · intro _ hht
      subst hht
      rfl
  · rw [if_neg hval]
    refine ⟨?_, fun _ _ => ⟨rfl, rfl⟩, ?_⟩
    · constructor
      · intro h
        exact absurd h (by simp)
      · intro h
        exfalso
        apply hval
        rcases h with h | h
        · injection h with h1 h2
          exact Or.inl ⟨h1, h2⟩
        · injection h with h1 h2
          exact Or.inr ⟨h1, h2⟩
    · intro h
      exact absurd h (by simp)

/-- C6: whenever the signature verifies under one of the configured secrets,
the route's HTTP response is the 200 acknowledgment whose body carries
`received = true` — the same value for every store, every event type
(handled or unknown), and whether or not the detached processing dies; the
response is a function of the request and secrets alone, fixed before any
database mutation. -/
theorem webhook_ack_response (now : Nat) (primary connect : Option String)
    (body : Event) (sig : Sig) (ht : Bool) (st : Store)
    (hb : sig.body = body) (hne : sig.secret ≠ "")
    (hsec : primary = some sig.secret ∨ connect = some sig.secret) :
    (StripeWebhook.POST now primary connect body sig ht st).1 =
      WebhookResponse.ack ∧
    WebhookResponse.ack.statusCode = 200 ∧
    WebhookResponse.ack.received = some true := by
  refine ⟨?_, rfl, rfl⟩
  obtain ⟨s, sb⟩ := sig
  have hsb : sb = body := hb
  have hsne : s ≠ "" := hne
  subst hsb
  rcases primary with _ | p <;> rcases connect with _ | c
  · rcases hsec with h | h <;> exact absurd h (by simp)
  · have hc : c = s := by
      rcases hsec with h | h
      · exact absurd h (by simp)
      · exact Option.some.inj h
    subst hc
    simp [StripeWebhook.POST, constructEvent, strFalsy, hsne]
  · have hp : p = s := by
      rcases hsec with h | h
      · exact Option.some.inj h
      · exact absurd h (by simp)
    subst hp
    simp [StripeWebhook.POST, constructEvent, strFalsy, hsne]
  · by_cases hp : p = s
    · subst hp
      simp [StripeWebhook.POST, constructEvent, strFalsy, hsne]
    · have hc : c = s := by
        rcases hsec with h | h
        · exact absurd (Option.some.inj h) hp
        · exact Option.some.inj h
      subst hc
      by_cases hpe : p = "" <;>
        simp [StripeWebhook.POST, constructEvent, strFalsy, hsne, hp,
          Ne.symm hp, hpe]

/-- C6 (witness): an event of an unhandled type, signed under the connect
secret, still draws the 200 `received = true` acknowledgment. -/
theorem webhook_ack_response_witness :
    (StripeWebhook.POST 0 (some "whsec_a") (some "whsec_b") evC6unknown
        ⟨"whsec_b", evC6unknown⟩ false stC1).1 = WebhookResponse.ack ∧
    WebhookResponse.ack.statusCode = 200 ∧
    WebhookResponse.ack.received = some true :=
  webhook_ack_response 0 (some "whsec_a") (some "whsec_b") evC6unknown
    ⟨"whsec_b", evC6unknown⟩ false stC1 rfl (by decide) (Or.inr rfl)

/-- C3: a verified `payment_succeeded` event tagged `kind =
"credits_purchase"` is routed to the credits grant, not to the marketplace
sale handler: no sale table is touched; when the payment id is new a ledger
row keyed by it is appended and the buyer profile's credits rise by the
purchased amount; when a ledger row for the id already exists (the
duplicate-key case) the event is a no-op, treated as already granted. -/
theorem credits_purchase_routing (now : Nat) (pi : PaymentIntent) (st : Store)
    (uid : String) (c : Int)
    (hkind : pi.metadata.kind = some "credits_purchase")
    (huid : pi.metadata.userId = some uid)
    (hc : pi.metadata.credits = some c) :
    routePaymentSucceeded now pi st = grantCreditsFromPI pi st ∧
    (routePaymentSucceeded now pi st).mkt_transactions = st.mkt_transactions ∧
    (routePaymentSucceeded now pi st).mkt_listings = st.mkt_listings ∧
    (routePaymentSucceeded now pi st).user_assets = st.user_assets ∧
    (routePaymentSucceeded now pi st).mkt_payouts = st.mkt_payouts ∧
    ((∀ e ∈ st.credits_ledger, e.payment_intent ≠ pi.id) →
      (routePaymentSucceeded now pi st).credits_ledger =
        st.credits_ledger ++ [⟨uid, pi.id, pi.amount, c, "purchase"⟩] ∧
      (routePaymentSucceeded now pi st).mkt_profiles =
        st.mkt_profiles.map (fun (p : Profile) =>
          if p.id = uid then { p with credits := p.credits + c } else p)) ∧
    ((∃ e ∈ st.credits_ledger, e.payment_intent = pi.id) →
      routePaymentSucceeded now pi st = st) := by
  have hroute : routePaymentSucceeded now pi st = grantCreditsFromPI pi st := by
    simp [routePaymentSucceeded, hkind]
  rw [hroute]
  refine ⟨rfl, ?_⟩
  by_cases hdup : (st.credits_ledger.any fun e => decide (e.payment_intent = pi.id)) = true
  · have hg : grantCreditsFromPI pi st = st := by
      simp [grantCreditsFromPI, huid, hc, hdup]
    rw [hg]
    refine ⟨rfl, rfl, rfl, rfl, ?_, fun _ => rfl⟩
    intro hnone
    exfalso
    obtain ⟨e, he, hep⟩ := List.any_eq_true.mp hdup
    exact hnone e he (by simpa using hep)
  · have hg : grantCreditsFromPI pi st =
        { st with
          credits_ledger := st.credits_ledger ++
            [⟨uid, pi.id, pi.amount, c, "purchase"⟩],
          mkt_profiles := st.mkt_profiles.map (fun (p : Profile) =>
            if p.id = uid then { p with credits := p.credits + c } else p) } := by
      simp [grantCreditsFromPI, huid, hc, hdup]
    rw [hg]
    refine ⟨rfl, rfl, rfl, rfl, fun _ => ⟨rfl, rfl⟩, ?_⟩
    rintro ⟨e, he, hep⟩
    exact absurd (List.any_eq_true.mpr ⟨e, he, by simp [hep]⟩) hdup

/-- C3 (witness): the concrete grant and its duplicate-delivery no-op. -/
theorem credits_purchase_routing_witness :
    routePaymentSucceeded 0 piC3 stC3 = grantCreditsFromPI piC3 stC3 ∧
    (routePaymentSucceeded 0 piC3 stC3).mkt_transactions = stC3.mkt_transactions ∧
    (routePaymentSucceeded 0 piC3 stC3).mkt_listings = stC3.mkt_listings ∧
    (routePaymentSucceeded 0 piC3 stC3).user_assets = stC3.user_assets ∧
    (routePaymentSucceeded 0 piC3 stC3).mkt_payouts = stC3.mkt_payouts ∧
    ((∀ e ∈ stC3.credits_ledger, e.payment_intent ≠ "pi_c") →
      (routePaymentSucceeded 0 piC3 stC3).credits_ledger =
        stC3.credits_ledger ++ [⟨"U1", "pi_c", 2000, 80, "purchase"⟩] ∧
      (routePaymentSucceeded 0 piC3 stC3).mkt_profiles =
        stC3.mkt_profiles.map (fun (p : Profile) =>
          if p.id = "U1" then { p with credits := p.credits + 80 } else p)) ∧
    ((∃ e ∈ stC3.credits_ledger, e.payment_intent = "pi_c") →
      routePaymentSucceeded 0 piC3 stC3 = stC3) ∧
    routePaymentSucceeded 0 piC3 stC3dup = stC3dup :=
  ⟨(credits_purchase_routing 0 piC3 stC3 "U1" 80 rfl rfl rfl).1,
   (credits_purchase_routing 0 piC3 stC3 "U1" 80 rfl rfl rfl).2.1,
   (credits_purchase_routing 0 piC3 stC3 "U1" 80 rfl rfl rfl).2.2.1,
   (credits_purchase_routing 0 piC3 stC3 "U1" 80 rfl rfl rfl).2.2.2.1,
   (credits_purchase_routing 0 piC3 stC3 "U1" 80 rfl rfl rfl).2.2.2.2.1,
   (credits_purchase_routing 0 piC3 stC3 "U1" 80 rfl rfl rfl).2.2.2.2.2.1,
   (credits_purchase_routing 0 piC3 stC3 "U1" 80 rfl rfl rfl).2.2.2.2.2.2,
   (credits_purchase_routing 0 piC3 stC3dup "U1" 80 rfl rfl rfl).2.2.2.2.2.2
     ⟨⟨"U1", "pi_c", 2000, 80, "purchase"⟩, List.mem_singleton_self _, rfl⟩⟩

/-- C9: an authenticated credits-checkout request with a `usd` value outside
the allowed packs draws HTTP 400 and creates no session; an allowed value
creates a session for `usd * CREDITS_PER_USD` credits at a unit amount of
`usd * 100` cents — `CREDITS_PER_USD = 4` and the packs are {20, 40, 60},
so usd = 20 yields 80 credits at 2000 cents. -/
theorem credits_checkout_packs (uid : String) (u : Int) :
    (u ∉ CreditsCheckout.ALLOWED_PACKS →
      CreditsCheckout.POST (some uid) (some u) =
        CreditsCheckout.CheckoutResult.invalidPack ∧
      (CreditsCheckout.POST (some uid) (some u)).statusCode = 400) ∧
    (u ∈ CreditsCheckout.ALLOWED_PACKS →
      CreditsCheckout.POST (some uid) (some u) =
        CreditsCheckout.CheckoutResult.session
          (u * CreditsCheckout.CREDITS_PER_USD) (u * 100) "credits_purchase" uid) ∧
    CreditsCheckout.CREDITS_PER_USD = 4 ∧
    CreditsCheckout.ALLOWED_PACKS = [20, 40, 60] ∧
    CreditsCheckout.POST (some uid) (some 20) =
      CreditsCheckout.CheckoutResult.session 80 2000 "credits_purchase" uid := by
  refine ⟨?_, ?_, rfl, rfl, ?_⟩
  · intro hu
    simp [CreditsCheckout.POST, hu, CreditsCheckout.CheckoutResult.statusCode]
  · intro hu
    simp [CreditsCheckout.POST, hu]
  · have h20 : (20 : Int) ∈ CreditsCheckout.ALLOWED_PACKS := by decide
    simp [CreditsCheckout.POST, h20, CreditsCheckout.CREDITS_PER_USD]

/-- The profiles table after `markSellerReadiness` is the by-account update
mapped over a base list (the upsert's result); when the account carries a
truthy user id, that base holds a row with that id, and every such row
already carries the account's id. -/
theorem markSeller_profiles_shape (acct : StripeAccount) (st : Store) :
    ∃ base : List Profile,
      (markSellerReadiness acct st).mkt_profiles = base.map (fun p =>
        if p.stripe_account_id = some acct.id then
          { p with stripe_verified := sellerVerified acct,
                   is_seller := sellerVerified acct }
        else p) ∧
      (∀ uid, acct.metadata_user_id = some uid → uid ≠ "" →
        (∃ q ∈ base, q.id = uid) ∧
        (∀ q ∈ base, q.id = uid → q.stripe_account_id = some acct.id)) := by
  unfold markSellerReadiness
  cases hmeta : acct.metadata_user_id with
  | none =>
    refine ⟨st.mkt_profiles, by simp, ?_⟩
    intro uid huid
    simp at huid
  | some uid0 =>
    by_cases hempty : uid0 = ""
    · refine ⟨st.mkt_profiles, by simp [hempty], ?_⟩
      intro uid huid hne
      exact absurd (by rw [← Option.some.inj huid, hempty]) hne
    · by_cases hany : st.mkt_profiles.any (fun p => decide (p.id = uid0))
      · refine ⟨st.mkt_profiles.map (fun (p : Profile) =>
          if p.id = uid0 then
            { p with email := none, stripe_account_id := some acct.id,
                     stripe_verified := sellerVerified acct,
                     is_seller := sellerVerified acct }
          else p), by simp [hempty, hany], ?_⟩
        intro uid huid hne
        obtain rfl : uid0 = uid := Option.some.inj huid
        constructor
        · obtain ⟨q, hq, hqid⟩ := List.any_eq_true.mp hany
          refine ⟨_, List.mem_map_of_mem _ hq, ?_⟩
          have hqid' : q.id = uid0 := by simpa using hqid
          simp [hqid']
        · intro q hq hqid
          obtain ⟨q', hq', rfl⟩ := List.mem_map.mp hq
          by_cases hc : q'.id = uid0
          · simp [hc]
          · simp [hc] at hqid
      · refine ⟨st.mkt_profiles ++
          [({ id := uid0, email := none, stripe_account_id := some acct.id,
              stripe_verified := sellerVerified acct,
              is_seller := sellerVerified acct, credits := 0 } : Profile)],
          by simp [hempty, hany], ?_⟩
        intro uid huid hne
        obtain rfl : uid0 = uid := Option.some.inj huid
        constructor
        · exact ⟨_, List.mem_append_right _ (List.mem_singleton_self _), rfl⟩
        · intro q hq hqid
          rcases List.mem_append.mp hq with hq' | hq'
          · exfalso
            have hq2 : (st.mkt_profiles.any fun p => decide (p.id = uid0)) = true :=
              List.any_eq_true.mpr ⟨q, hq', by simp [hqid]⟩
            exact hany hq2
          · obtain rfl := List.mem_singleton.mp hq'
            rfl

/-- C7: the derived seller-verified boolean equals the conjunction
`charges_enabled ∧ payouts_enabled ∧ currently_due = []` (false as soon as
one conjunct fails), and after `markSellerReadiness` it is persisted both
onto the profile named by the account's embedded user-id metadata (when
truthy) — which also receives the connected-account id — and onto every
profile row whose stored connected-account id matches the event's account. -/
theorem seller_readiness (acct : StripeAccount) (st : Store) :
    ((sellerVerified acct = true) ↔
      (acct.charges_enabled = true ∧ acct.payouts_enabled = true ∧
       acct.currently_due = [])) ∧
    (∀ uid, acct.metadata_user_id = some uid → uid ≠ "" →
      (∃ p ∈ (markSellerReadiness acct st).mkt_profiles, p.id = uid) ∧
      (∀ p ∈ (markSellerReadiness acct st).mkt_profiles, p.id = uid →
        p.stripe_verified = sellerVerified acct ∧
        p.is_seller = sellerVerified acct ∧
        p.stripe_account_id = some acct.id)) ∧
    (∀ p ∈ (markSellerReadiness acct st).mkt_profiles,
      p.stripe_account_id = some acct.id →
        p.stripe_verified = sellerVerified acct ∧
        p.is_seller = sellerVerified acct) := by
  obtain ⟨base, hbase, hprops⟩ := markSeller_profiles_shape acct st
  refine ⟨?_, ?_, ?_⟩
  · simp [sellerVerified, and_assoc, List.length_eq_zero]
  · intro uid huid hne
    obtain ⟨⟨q, hq, hqid⟩, hall⟩ := hprops uid huid hne
    constructor
    · rw [hbase]
      refine ⟨_, List.mem_map_of_mem _ hq, ?_⟩
      by_cases hc : q.stripe_account_id = some acct.id <;> simp [hc, hqid]
    · intro p hp hpid
      rw [hbase] at hp
      obtain ⟨q', hq', rfl⟩ := List.mem_map.mp hp
      have hq'id : q'.id = uid := by
        by_cases hc : q'.stripe_account_id = some acct.id
        · simpa [hc] using hpid
        · simpa [hc] using hpid
      have hacc := hall q' hq' hq'id
      simp [hacc]
  · intro p hp hpacc
    rw [hbase] at hp
    obtain ⟨q, hq, rfl⟩ := List.mem_map.mp hp
    by_cases hc : q.stripe_account_id = some acct.id
    · simp [hc]
    · simp [hc] at hpacc

/-- C2 (witness): a body signed under a third secret is rejected with 400
and no store change; the acceptance condition evaluates as stated. -/
theorem webhook_signature_gate_witness :
    (((StripeWebhook.POST 0 (some "whsec_a") (some "whsec_b") evC6
        ⟨"whsec_x", evC6⟩ false stC1).1 = WebhookResponse.ack) ↔
      ((⟨"whsec_x", evC6⟩ : Sig) = ⟨"whsec_a", evC6⟩ ∨
       (⟨"whsec_x", evC6⟩ : Sig) = ⟨"whsec_b", evC6⟩)) ∧
    ("whsec_x" ≠ "whsec_a" → "whsec_x" ≠ "whsec_b" →
      StripeWebhook.POST 0 (some "whsec_a") (some "whsec_b") evC6
          ⟨"whsec_x", evC6⟩ false stC1 = (WebhookResponse.badSig, stC1) ∧
      WebhookResponse.badSig.statusCode = 400) ∧
    ((StripeWebhook.POST 0 (some "whsec_a") (some "whsec_b") evC6
        ⟨"whsec_x", evC6⟩ false stC1).1 = WebhookResponse.ack → false = false →
      (StripeWebhook.POST 0 (some "whsec_a") (some "whsec_b") evC6
        ⟨"whsec_x", evC6⟩ false stC1).2 = dispatchEvent 0 evC6 stC1) :=
  webhook_signature_gate 0 "whsec_a" "whsec_b" evC6 ⟨"whsec_x", evC6⟩ false stC1
    (by decide) (by decide)

end Cardify
